import Mathlib

/-! Shallow embedding of the response-dispatch and schema-validation core of
the fetcher library (src/api/fetcher.ts, src/api/validation.ts,
src/errors/base.ts, src/errors/utils.ts), together with proofs of the
behavioural claims about it.

Modelling conventions:
* JSON-decoded bodies are `Value`.
* A Standard Schema is its validate entry point: a function from a
  candidate value to an outcome that is either `success value` (a result
  object with no issues field), `failure issues` (a result object whose
  issues field is present), or `raise isErr msg` (the schema execution
  itself throws; `isErr` records whether the thrown thing is an
  ECMAScript Error, which only matters for the message of the top-level
  generic wrap in `fetcher`).
* Thrown JavaScript values are `Err`.  `Err.api` models instances of
  (subclasses of) the ApiError base class, `Err.schemaValidation` models
  SchemaValidationError, `Err.generic` models plain Error values
  constructed by the fetcher code itself, and `Err.foreign` models
  anything thrown by a schema implementation or the JSON decoder.  The
  code never branches on generic-vs-foreign (both fail the
  `instanceof ApiError` and `instanceof SchemaValidationError` tests),
  so the provenance tag is behaviour-preserving.
* Promises are collapsed: `async` functions that can throw become
  `Except Err`; `handleErrorResponse` has return type `Promise<never>`
  in the source (it always throws), so it is embedded as returning the
  thrown `Err` directly.
* The try/catch of `fetcher` only intercepts throw completions during
  the execution of its body.  `handleErrorResponse` is awaited, so its
  rejection reaches the catch; the final `return parseResponse(...)` is
  NOT awaited, so the rejection of that returned promise adopts into
  the result of `fetcher` without ever reaching the catch.
-/

namespace FetcherSpec

/-- JSON-like values (the result of `response.json()`). -/
inductive Value where
  | vnull : Value
  | vbool : Bool → Value
  | vnum : Int → Value
  | vstr : String → Value
  | varr : List Value → Value
  | vobj : List (String × Value) → Value

/-- A structured validation issue (`StandardSchemaV1.Issue`): at minimum a
human-readable message. -/
structure Issue where
  message : String

/-- Outcome of running a schema validate entry point on a candidate value:
a result carrying a value (no issues field), a result carrying an issues
field, or a throw from the schema execution itself. -/
inductive SchemaOutcome where
  | success : Value → SchemaOutcome
  | failure : List Issue → SchemaOutcome
  | raise : Bool → String → SchemaOutcome

/-- A schema is identified with its uniform validate entry point
(`schema['~standard'].validate`). -/
def Schema : Type := Value → SchemaOutcome

/-- An error kind produced by `defineError`: the class returned there is
pure configuration binding a status code, a body schema and an optional
name.  `statusCode` is an `Int` because the source imposes no range
validation on it. -/
structure ErrorKind where
  statusCode : Int
  schema : Schema
  name : Option String

/-- The runtime `name` of the anonymous class expression returned by
`defineError`.  ECMAScript gives a class expression that is returned
directly (no NamedEvaluation) the name `""`, so `this.constructor.name`
in the ApiError base constructor evaluates to the empty string. -/
def anonymousClassName : String := ""

/-- The factory `defineError(statusCode, schema, name?)` from src/errors/utils.ts:
returns the descriptor/class pair; statics `statusCode` and `schema` are
the given arguments, readable without instantiation. -/
def defineError (statusCode : Int) (schema : Schema) (name : Option String) : ErrorKind :=
  { statusCode := statusCode, schema := schema, name := name }

/-- A completed HTTP response as the dispatch core observes it:
numeric status, status text, the `content-length` header lookup
(`headers.get` yields a string or null), and the result of decoding the
body as JSON (`none` when `response.json()` would throw). -/
structure Response where
  status : Int
  statusText : String
  contentLength : Option String
  body : Option Value

/-- The `response.ok` flag: status in the 2xx range. -/
def Response.ok (r : Response) : Bool :=
  decide (200 ≤ r.status) && decide (r.status ≤ 299)

/-- An instance of a class returned by `defineError` (extends ApiError):
built as `new ErrorClass(message, data, response)`. -/
structure ApiInstance where
  kind : ErrorKind
  message : String
  data : Value
  response : Response

/-- The instance field `statusCode` (copied from the descriptor by the
class body `readonly statusCode = statusCode`). -/
def ApiInstance.statusCode (i : ApiInstance) : Int := i.kind.statusCode

/-- The instance field `name`: the ApiError base constructor sets
`this.name = this.constructor.name` (the empty string for the anonymous
class), and the derived constructor overwrites it with the descriptor
name only when that name is truthy (`if (name) this.name = name`), so an
empty-string name is kept as the constructor name. -/
def ApiInstance.name (i : ApiInstance) : String :=
  match i.kind.name with
  | some n => if n = "" then anonymousClassName else n
  | none => anonymousClassName

/-- Construction `new ErrorClass(message, data, response)` for the class of kind `k`. -/
def ErrorKind.newInstance (k : ErrorKind) (message : String) (data : Value)
    (response : Response) : ApiInstance :=
  { kind := k, message := message, data := data, response := response }

/-- Thrown JavaScript values, as far as the dispatch core can tell them
apart. -/
inductive Err where
  | api : ApiInstance → Err
  | schemaValidation : String → List Issue → Err
  | generic : String → Err
  | foreign : Bool → String → Err

/-- The message fallback of `validateSchema`: the message of the first
issue, or the fixed text when there is no first issue or its message is
the empty string (which is falsy in JavaScript, so the source fallback
also fires on it). -/
def firstIssueMsg : List Issue → String
  | [] => "Unknown error"
  | i :: _ => if i.message = "" then "Unknown error" else i.message

/-- The adapter `validateSchema` from src/api/validation.ts: run the schema entry
point; a result with an issues field (even an empty list, which is a
truthy array in JavaScript) becomes a thrown SchemaValidationError
carrying that exact list; a result without issues resolves with its
value; a throw from the schema execution propagates unchanged. -/
def validateSchema (schema : Schema) (data : Value) : Except Err Value :=
  match schema data with
  | .success v => .ok v
  | .failure issues =>
      .error (.schemaValidation ("Validation failed: " ++ firstIssueMsg issues) issues)
  | .raise isErr m => .error (.foreign isErr m)

/-- The generic failure message `Request failed: ${status} ${statusText}`. -/
def requestFailedMsg (r : Response) : String :=
  "Request failed: " ++ toString r.status ++ " " ++ r.statusText

/-- The exhausted-candidates message
`Request failed: ${status} ${statusText} - No matching error schema`. -/
def noSchemaMsg (r : Response) : String :=
  requestFailedMsg r ++ " - No matching error schema"

/-- The candidate loop of `handleErrorResponse`: for each status-matching
error class in order, validate the decoded body; on acceptance construct
and throw an instance of that class (thrown inside the try, re-thrown
by the catch because an ApiError is not a SchemaValidationError); on a
SchemaValidationError continue with the next candidate; re-throw any
other error; after the last candidate throw the generic
no-matching-schema error. -/
def tryCandidates (r : Response) (data : Value) : List ErrorKind → Err
  | [] => .generic (noSchemaMsg r)
  | k :: rest =>
    match validateSchema k.schema data with
    | .ok v => .api (k.newInstance r.statusText v r)
    | .error (.schemaValidation _ _) => tryCandidates r data rest
    | .error e => e

/-- The filter `errorTypes.filter(E => E.statusCode === response.status)`. -/
def matchingErrors (r : Response) (errorTypes : List ErrorKind) : List ErrorKind :=
  errorTypes.filter (fun E => E.statusCode == r.status)

/-- The failure path `handleErrorResponse` from src/api/fetcher.ts (it always throws, so
it is embedded as returning the thrown value). -/
def handleErrorResponse (r : Response) (errorTypes : List ErrorKind) : Err :=
  if errorTypes.isEmpty then .generic (requestFailedMsg r)
  else if (matchingErrors r errorTypes).isEmpty then .generic (requestFailedMsg r)
  else
    match r.body with
    | none => .generic (requestFailedMsg r)
    | some responseData => tryCandidates r responseData (matchingErrors r errorTypes)

/-- The thrown value the JSON decoder produces on an undecodable success
body (an engine SyntaxError; the message is engine-specific, a fixed
representative is used). -/
def jsonDecodeErr : Err := .foreign true "Unexpected end of JSON input"

/-- The success parser `parseResponse` from src/api/fetcher.ts: the empty-body
short-circuit (status 204, or content-length header string-equal to
"0") resolves to null before any decoding; otherwise decode, pass
through when no schema is supplied, else validate (the try/catch there
only emits a diagnostic and re-throws, so its net value is the
`validateSchema` result). -/
def parseResponse (r : Response) (schema : Option Schema) : Except Err Value :=
  if r.status = 204 ∨ r.contentLength = some "0" then .ok .vnull
  else
    match r.body with
    | none => .error jsonDecodeErr
    | some data =>
      match schema with
      | none => .ok data
      | some s => validateSchema s data

/-- The top-level catch of `fetcher`: an ApiError is re-thrown as-is; a
SchemaValidationError becomes a plain Error with the
`Response validation failed:` prefix; anything else becomes a plain
Error with the `Request failed:` prefix (using the message of the
thrown value when it is an Error, the fixed text otherwise).  Only
throws the catch actually intercepts flow through this: in `fetcher`
that is the awaited failure path (and transport errors), never the
unawaited returned `parseResponse` promise, so the SchemaValidationError
branch here is dead code in practice, embedded for fidelity. -/
def wrapCaught : Err → Err
  | .api inst => .api inst
  | .schemaValidation msg _ => .generic ("Response validation failed: " ++ msg)
  | .generic msg => .generic ("Request failed: " ++ msg)
  | .foreign true msg => .generic ("Request failed: " ++ msg)
  | .foreign false _ => .generic ("Request failed: Unknown error")

/-- The public operation `fetcher` from src/api/fetcher.ts, after the
transport has produced a response.  On a non-ok status it awaits
`handleErrorResponse` (which always throws), so that rejection is a
throw completion inside the try block and passes through the top-level
catch.  On an ok status it executes `return parseResponse(response,
schema)` WITHOUT awaiting: the async call never throws synchronously,
the returned promise is adopted by the result promise of `fetcher`
directly, and a later rejection of it (in particular the
SchemaValidationError for a rejecting success schema) bypasses the
catch entirely and propagates unchanged to the caller. -/
def fetcher (r : Response) (schema : Option Schema) (errors : List ErrorKind) :
    Except Err Value :=
  if r.ok then parseResponse r schema
  else .error (wrapCaught (handleErrorResponse r errors))

/-- Does a dispatch result consist of a thrown SchemaValidationError? -/
def thrownSchemaValidation : Except Err Value → Bool
  | .error (.schemaValidation _ _) => true
  | _ => false

/-- Is a thrown value one of the plain generic Errors built by the
fetcher code itself? -/
def isGenericErr : Err → Bool
  | .generic _ => true
  | _ => false

/-! Concrete schemas, responses and error kinds used as witnesses -/

/-- A schema accepting exactly objects of shape `{foo: number}`. -/
def schemaFooNum : Schema := fun v =>
  match v with
  | .vobj [("foo", .vnum n)] => .success (.vobj [("foo", .vnum n)])
  | _ => .failure [⟨"Expected foo number"⟩]

/-- A schema rejecting every candidate. -/
def schemaRejectAll : Schema := fun _ => .failure [⟨"Expected bar"⟩]

/-- A schema accepting exactly objects of shape `{id: string}`. -/
def schemaIdString : Schema := fun v =>
  match v with
  | .vobj [("id", .vstr s)] => .success (.vobj [("id", .vstr s)])
  | _ => .failure [⟨"Expected string id"⟩]

/-- A schema accepting exactly objects of shape `{message: string}`. -/
def schemaMessage : Schema := fun v =>
  match v with
  | .vobj [("message", .vstr s)] => .success (.vobj [("message", .vstr s)])
  | _ => .failure [⟨"Expected message"⟩]

/-- A schema whose execution throws an Error. -/
def schemaThrowing : Schema := fun _ => .raise true "boom"

def respBad400 : Response := ⟨400, "Bad Request", none, some (.vobj [("foo", .vnum 1)])⟩

def respOk200 : Response := ⟨200, "OK", none, some (.vobj [("id", .vnum 1)])⟩

def respNoContent : Response := ⟨204, "No Content", none, none⟩

def respNotFound : Response := ⟨404, "Not Found", none, some (.vobj [("message", .vstr "nope")])⟩

def kindBar400 : ErrorKind := defineError 400 schemaRejectAll (some "BarError")

def kindFoo400 : ErrorKind := defineError 400 schemaFooNum (some "FooError")

def kindThrow400 : ErrorKind := defineError 400 schemaThrowing (some "ThrowError")

def kindNotFound : ErrorKind := defineError 404 schemaMessage (some "NotFoundError")

/-! Basic lemmas about the embedded operations -/

theorem validateSchema_success {s : Schema} {d v : Value}
    (h : s d = .success v) : validateSchema s d = .ok v := by
  simp [validateSchema, h]

theorem validateSchema_failure {s : Schema} {d : Value} {issues : List Issue}
    (h : s d = .failure issues) :
    validateSchema s d =
      .error (.schemaValidation ("Validation failed: " ++ firstIssueMsg issues) issues) := by
  simp [validateSchema, h]

theorem validateSchema_raise {s : Schema} {d : Value} {b : Bool} {m : String}
    (h : s d = .raise b m) : validateSchema s d = .error (.foreign b m) := by
  simp [validateSchema, h]

theorem tryCandidates_cons_reject {k : ErrorKind} {d : Value} {issues : List Issue}
    (r : Response) (l : List ErrorKind) (h : k.schema d = .failure issues) :
    tryCandidates r d (k :: l) = tryCandidates r d l := by
  simp [tryCandidates, validateSchema_failure h]

theorem tryCandidates_accept {k : ErrorKind} {d v : Value}
    (r : Response) (l : List ErrorKind) (h : k.schema d = .success v) :
    tryCandidates r d (k :: l) = .api (k.newInstance r.statusText v r) := by
  simp [tryCandidates, validateSchema_success h]

theorem tryCandidates_raise {k : ErrorKind} {d : Value} {b : Bool} {m : String}
    (r : Response) (l : List ErrorKind) (h : k.schema d = .raise b m) :
    tryCandidates r d (k :: l) = .foreign b m := by
  simp [tryCandidates, validateSchema_raise h]

theorem tryCandidates_skip {d : Value} (r : Response) {pre : List ErrorKind}
    (l : List ErrorKind) (hpre : ∀ k ∈ pre, ∃ i, k.schema d = .failure i) :
    tryCandidates r d (pre ++ l) = tryCandidates r d l := by
  induction pre with
  | nil => rfl
  | cons k pre ih =>
    obtain ⟨i, hi⟩ := hpre k (List.mem_cons_self k pre)
    rw [List.cons_append, tryCandidates_cons_reject r _ hi]
    exact ih (fun k' hk' => hpre k' (List.mem_cons_of_mem _ hk'))

theorem isGenericErr_tryCandidates (r : Response) (d : Value) (l : List ErrorKind) :
    isGenericErr (tryCandidates r d l) = true ↔ ∀ k ∈ l, ∃ i, k.schema d = .failure i := by
  induction l with
  | nil => simp [tryCandidates, isGenericErr]
  | cons k rest ih =>
    cases h : k.schema d with
    | success v =>
      rw [tryCandidates_accept r rest h]
      simp only [isGenericErr, Bool.false_eq_true, false_iff]
      intro hall
      obtain ⟨i, hi⟩ := hall k (List.mem_cons_self k rest)
      rw [h] at hi
      exact SchemaOutcome.noConfusion hi
    | failure issues =>
      rw [tryCandidates_cons_reject r rest h, ih]
      constructor
      · intro hall k' hk'
        rcases List.mem_cons.mp hk' with hk' | hk'
        · exact hk' ▸ ⟨issues, h⟩
        · exact hall k' hk'
      · intro hall k' hk'
        exact hall k' (List.mem_cons_of_mem _ hk')
    | raise b m =>
      rw [tryCandidates_raise r rest h]
      simp only [isGenericErr, Bool.false_eq_true, false_iff]
      intro hall
      obtain ⟨i, hi⟩ := hall k (List.mem_cons_self k rest)
      rw [h] at hi
      exact SchemaOutcome.noConfusion hi

theorem tryCandidates_generic_msg (r : Response) (d : Value) (l : List ErrorKind)
    {msg : String} (h : tryCandidates r d l = .generic msg) : msg = noSchemaMsg r := by
  induction l with
  | nil =>
    rw [tryCandidates] at h
    exact (Err.generic.inj h).symm
  | cons k rest ih =>
    cases hs : k.schema d with
    | success v => rw [tryCandidates_accept r rest hs] at h; exact Err.noConfusion h
    | failure issues => rw [tryCandidates_cons_reject r rest hs] at h; exact ih h
    | raise b m => rw [tryCandidates_raise r rest hs] at h; exact Err.noConfusion h

theorem handleErrorResponse_eq_tryCandidates {r : Response} {errorTypes : List ErrorKind}
    {d : Value} (hm : matchingErrors r errorTypes ≠ [])
    (hb : r.body = some d) :
    handleErrorResponse r errorTypes = tryCandidates r d (matchingErrors r errorTypes) := by
  have hne : errorTypes ≠ [] := by
    intro h
    exact hm (by rw [h]; rfl)
  rw [handleErrorResponse, if_neg (by simp [List.isEmpty_iff, hne]),
    if_neg (by simp [List.isEmpty_iff, hm]), hb]

/-! Claim theorems -/

/-- C4: for every successful (2xx) response whose status is exactly 204
or whose content-length header is present and equals zero, dispatch
resolves to null without decoding the body (the body field of the
response is arbitrary, including undecodable) and without invoking the
success schema (the schema is arbitrary and the result does not depend
on it). -/
theorem claim4_empty_body_null (r : Response) (schema : Option Schema)
    (errors : List ErrorKind) (hok : r.ok = true)
    (h : r.status = 204 ∨ r.contentLength = some "0") :
    fetcher r schema errors = .ok .vnull ∧ parseResponse r schema = .ok .vnull := by
  have hp : parseResponse r schema = .ok .vnull := by
    rw [parseResponse, if_pos h]
  exact ⟨by simp [fetcher, hok, hp], hp⟩

/-- Witness for C4: a 204 response with an undecodable body and a schema
that would reject resolves to null. -/
theorem claim4_empty_body_null_witness :
    fetcher respNoContent (some schemaIdString) [] = .ok .vnull ∧
    parseResponse respNoContent (some schemaIdString) = .ok .vnull :=
  claim4_empty_body_null respNoContent (some schemaIdString) [] rfl (Or.inl rfl)

/-- C7: for every status code (any integer, no range validation),
schema, and optional name, `defineError` returns a kind whose static
`statusCode` and `schema` are the given arguments, readable without
instantiation, and whose instances carry the Typed Error Instance shape:
`statusCode` (copied from the descriptor), `data`, `response` and
`message` fields. -/
theorem claim7_defineError_statics (sc : Int) (s : Schema) (n : Option String)
    (msg : String) (d : Value) (resp : Response) :
    (defineError sc s n).statusCode = sc ∧
    (defineError sc s n).schema = s ∧
    ((defineError sc s n).newInstance msg d resp).statusCode = sc ∧
    ((defineError sc s n).newInstance msg d resp).data = d ∧
    ((defineError sc s n).newInstance msg d resp).response = resp ∧
    ((defineError sc s n).newInstance msg d resp).message = msg :=
  ⟨rfl, rfl, rfl, rfl, rfl, rfl⟩

/-- Counterexample for C8: an instance of a kind defined without a
displayName has the empty string as its name (the runtime name of the
anonymous class expression that `defineError` returns), not a non-empty
generic default. -/
theorem claim8_counterexample :
    ((defineError 404 schemaMessage none).newInstance "Not Found"
        (.vobj [("message", .vstr "nope")]) respNotFound).name = "" := rfl

/-- C8 (amended): instances of a kind created with a non-empty
displayName carry it as their name; instances of a kind created without
a displayName carry the anonymous class constructor runtime name, which
is the empty string. -/
theorem claim8_instance_name (sc : Int) (s : Schema) (n msg : String) (d : Value)
    (resp : Response) (hn : n ≠ "") :
    ((defineError sc s (some n)).newInstance msg d resp).name = n ∧
    ((defineError sc s none).newInstance msg d resp).name = "" := by
  constructor
  · simp [ApiInstance.name, ErrorKind.newInstance, defineError, hn]
  · rfl

/-- Witness for C8 (amended). -/
theorem claim8_instance_name_witness :
    ((defineError 404 schemaMessage (some "NotFoundError")).newInstance "Not Found"
        .vnull respNotFound).name = "NotFoundError" ∧
    ((defineError 404 schemaMessage none).newInstance "Not Found"
        .vnull respNotFound).name = "" :=
  claim8_instance_name 404 schemaMessage "NotFoundError" "Not Found" .vnull respNotFound
    (by decide)

/-- C10: the Schema Adapter resolves with the result value exactly when
the schema result carries no issues field; whenever an issues field is
present, even an empty list, it throws SchemaValidationError whose
issues field is exactly that list and whose message is derived from the
first issue message, with the fixed fallback text when no first issue
exists (the JavaScript falsy test also applies it to an empty first
message). -/
theorem claim10_validateSchema_contract (s : Schema) (d : Value) :
    (∀ v, validateSchema s d = .ok v ↔ s d = .success v) ∧
    (∀ issues, s d = .failure issues →
        validateSchema s d =
          .error (.schemaValidation ("Validation failed: " ++ firstIssueMsg issues) issues)) ∧
    firstIssueMsg [] = "Unknown error" ∧
    (∀ i rest, i.message ≠ "" → firstIssueMsg (i :: rest) = i.message) := by
  refine ⟨?_, fun issues h => validateSchema_failure h, rfl, ?_⟩
  · intro v
    constructor
    · intro h
      cases hs : s d with
      | success w =>
        rw [validateSchema_success hs] at h
        exact congrArg SchemaOutcome.success (Except.ok.inj h)
      | failure issues => rw [validateSchema_failure hs] at h; exact Except.noConfusion h
      | raise b m => rw [validateSchema_raise hs] at h; exact Except.noConfusion h
    · exact validateSchema_success
  · intro i rest h
    simp [firstIssueMsg, h]

/-- Witness for C10: a rejecting schema result is converted into a
SchemaValidationError carrying exactly its issue list. -/
theorem claim10_validateSchema_contract_witness :
    validateSchema schemaRejectAll .vnull =
      .error (.schemaValidation ("Validation failed: " ++ firstIssueMsg [⟨"Expected bar"⟩])
        [⟨"Expected bar"⟩]) :=
  (claim10_validateSchema_contract schemaRejectAll .vnull).2.1 [⟨"Expected bar"⟩] rfl

/-- C1: for a non-2xx response, dispatch selects the status-matching
sublist of the error kinds in caller order (an order-preserving sublist
of the supplied list), validates the decoded body against each selected
candidate in order, skips candidates whose schema rejects, and throws
the Typed Error Instance of the first candidate whose schema accepts;
the instance surfaces unchanged from the public operation. -/
theorem claim1_ordered_first_match (r : Response) (errorTypes pre post : List ErrorKind)
    (k : ErrorKind) (d v : Value) (schema : Option Schema)
    (hok : r.ok = false)
    (hb : r.body = some d)
    (hfil : matchingErrors r errorTypes = pre ++ k :: post)
    (hpre : ∀ k' ∈ pre, ∃ i, k'.schema d = .failure i)
    (hk : k.schema d = .success v) :
    handleErrorResponse r errorTypes = .api (k.newInstance r.statusText v r) ∧
    fetcher r schema errorTypes = .error (.api (k.newInstance r.statusText v r)) ∧
    List.Sublist (matchingErrors r errorTypes) errorTypes := by
  have hm : matchingErrors r errorTypes ≠ [] := by rw [hfil]; simp
  have h1 : handleErrorResponse r errorTypes = .api (k.newInstance r.statusText v r) := by
    rw [handleErrorResponse_eq_tryCandidates hm hb, hfil, tryCandidates_skip r _ hpre]
    exact tryCandidates_accept r post hk
  refine ⟨h1, ?_, List.filter_sublist errorTypes⟩
  simp [fetcher, hok, h1, wrapCaught]

/-- Witness for C1: two kinds share status 400; the first rejects the
body and only the second accepts, so the thrown instance is built from
the second kind, never the first. -/
theorem claim1_ordered_first_match_witness :
    handleErrorResponse respBad400 [kindBar400, kindFoo400] =
      .api (kindFoo400.newInstance "Bad Request" (.vobj [("foo", .vnum 1)]) respBad400) ∧
    fetcher respBad400 none [kindBar400, kindFoo400] =
      .error (.api (kindFoo400.newInstance "Bad Request" (.vobj [("foo", .vnum 1)]) respBad400)) ∧
    List.Sublist (matchingErrors respBad400 [kindBar400, kindFoo400])
      [kindBar400, kindFoo400] := by
  have h := claim1_ordered_first_match respBad400 [kindBar400, kindFoo400] [kindBar400] []
    kindFoo400 (.vobj [("foo", .vnum 1)]) (.vobj [("foo", .vnum 1)]) none rfl rfl rfl
    (by
      intro k' hk'
      rw [List.mem_singleton] at hk'
      subst hk'
      exact ⟨[⟨"Expected bar"⟩], rfl⟩)
    rfl
  exact h

/-- C5: when a candidate kind matches the status (it is the only
status-matching candidate) and its schema accepts the decoded body with
coerced output `v`, the thrown value is an instance of that kind whose
`data` equals `v`, whose `statusCode` equals the response status, whose
`message` is the response status text, and which retains the original
response object. -/
theorem claim5_typed_instance_fields (r : Response) (errorTypes : List ErrorKind)
    (k : ErrorKind) (d v : Value)
    (hok : r.ok = false)
    (hb : r.body = some d)
    (hfil : matchingErrors r errorTypes = [k])
    (hk : k.schema d = .success v) :
    handleErrorResponse r errorTypes = .api (k.newInstance r.statusText v r) ∧
    (k.newInstance r.statusText v r).data = v ∧
    (k.newInstance r.statusText v r).statusCode = r.status ∧
    (k.newInstance r.statusText v r).message = r.statusText ∧
    (k.newInstance r.statusText v r).response = r := by
  have hm : matchingErrors r errorTypes ≠ [] := by rw [hfil]; simp
  have hks : k.statusCode = r.status := by
    have hmem : k ∈ matchingErrors r errorTypes := by
      rw [hfil]
      exact List.mem_singleton_self k
    have := (List.mem_filter.mp hmem).2
    simpa using this
  refine ⟨?_, rfl, hks, rfl, rfl⟩
  rw [handleErrorResponse_eq_tryCandidates hm hb, hfil]
  exact tryCandidates_accept r [] hk

/-- Witness for C5: a 404 response with body matching the single
registered kind yields that kind's instance with the validated data and
the response status. -/
theorem claim5_typed_instance_fields_witness :
    handleErrorResponse respNotFound [kindNotFound] =
      .api (kindNotFound.newInstance "Not Found" (.vobj [("message", .vstr "nope")])
        respNotFound) ∧
    (kindNotFound.newInstance "Not Found" (.vobj [("message", .vstr "nope")])
        respNotFound).statusCode = respNotFound.status :=
  ⟨(claim5_typed_instance_fields respNotFound [kindNotFound] kindNotFound
      (.vobj [("message", .vstr "nope")]) (.vobj [("message", .vstr "nope")])
      rfl rfl rfl rfl).1,
   (claim5_typed_instance_fields respNotFound [kindNotFound] kindNotFound
      (.vobj [("message", .vstr "nope")]) (.vobj [("message", .vstr "nope")])
      rfl rfl rfl rfl).2.2.1⟩

/-- C6: when validating a candidate throws anything other than a
SchemaValidationError, the failure-path loop propagates it immediately —
the result is that thrown value, independent of every later candidate —
and the Schema Adapter converts only a structured-issues result into a
SchemaValidationError, passing a throw from the schema execution through
unchanged (every SchemaValidationError it produces comes from a
structured-issues result). -/
theorem claim6_foreign_error_propagation (r : Response) (errorTypes pre post : List ErrorKind)
    (k : ErrorKind) (d : Value) (b : Bool) (m : String)
    (hok : r.ok = false)
    (hb : r.body = some d)
    (hfil : matchingErrors r errorTypes = pre ++ k :: post)
    (hpre : ∀ k' ∈ pre, ∃ i, k'.schema d = .failure i)
    (hk : k.schema d = .raise b m) :
    handleErrorResponse r errorTypes = .foreign b m ∧
    validateSchema k.schema d = .error (.foreign b m) ∧
    (∀ (s : Schema) (d' : Value) (msg : String) (iss : List Issue),
        validateSchema s d' = .error (.schemaValidation msg iss) → s d' = .failure iss) := by
  refine ⟨?_, validateSchema_raise hk, ?_⟩
  · have hm : matchingErrors r errorTypes ≠ [] := by rw [hfil]; simp
    rw [handleErrorResponse_eq_tryCandidates hm hb, hfil, tryCandidates_skip r _ hpre]
    exact tryCandidates_raise r post hk
  · intro s d' msg iss h
    cases hs : s d' with
    | success v =>
      rw [validateSchema_success hs] at h
      exact Except.noConfusion h
    | failure issues =>
      rw [validateSchema_failure hs] at h
      obtain ⟨hmsg, hiss⟩ := Err.schemaValidation.inj (Except.error.inj h)
      exact congrArg SchemaOutcome.failure hiss
    | raise b' m' =>
      rw [validateSchema_raise hs] at h
      exact Err.noConfusion (Except.error.inj h)

/-- Witness for C6: the first status-matching kind's schema throws, so
the loop result is that thrown value even though the next candidate
would have accepted the body. -/
theorem claim6_foreign_error_propagation_witness :
    handleErrorResponse respBad400 [kindThrow400, kindFoo400] = .foreign true "boom" ∧
    validateSchema kindThrow400.schema (.vobj [("foo", .vnum 1)]) =
      .error (.foreign true "boom") := by
  have h := claim6_foreign_error_propagation respBad400 [kindThrow400, kindFoo400] []
    [kindFoo400] kindThrow400 (.vobj [("foo", .vnum 1)]) true "boom" rfl rfl rfl
    (by intro k' hk'; exact absurd hk' (List.not_mem_nil k'))
    rfl
  exact ⟨h.1, h.2.1⟩

/-- C9: a typed ApiError instance thrown inside dispatch surfaces to the
caller as that same instance: the top-level catch re-throws an ApiError
as-is (never wraps or replaces it), and the candidate loop re-throws any
error that is not a SchemaValidationError. -/
theorem claim9_api_error_surfaces (r : Response) (schema : Option Schema)
    (errorTypes : List ErrorKind) (inst : ApiInstance)
    (hok : r.ok = false)
    (h : handleErrorResponse r errorTypes = .api inst) :
    fetcher r schema errorTypes = .error (.api inst) ∧
    wrapCaught (.api inst) = .api inst ∧
    (∀ (d : Value) (k : ErrorKind) (rest : List ErrorKind) (e : Err),
        validateSchema k.schema d = .error e →
        (∀ msg iss, e ≠ .schemaValidation msg iss) →
        tryCandidates r d (k :: rest) = e) := by
  refine ⟨?_, rfl, ?_⟩
  · simp [fetcher, hok, h, wrapCaught]
  · intro d k rest e he hne
    cases hs : k.schema d with
    | success v =>
      rw [validateSchema_success hs] at he
      exact Except.noConfusion he
    | failure issues =>
      rw [validateSchema_failure hs] at he
      exact absurd (Except.error.inj he).symm (hne _ _)
    | raise b m =>
      rw [validateSchema_raise hs] at he
      rw [tryCandidates_raise r rest hs]
      exact Except.error.inj he

/-- Witness for C9: the typed 404 instance thrown by the failure path is
exactly the error the public operation rejects with. -/
theorem claim9_api_error_surfaces_witness :
    fetcher respNotFound none [kindNotFound] =
      .error (.api (kindNotFound.newInstance "Not Found"
        (.vobj [("message", .vstr "nope")]) respNotFound)) :=
  (claim9_api_error_surfaces respNotFound none [kindNotFound]
    (kindNotFound.newInstance "Not Found" (.vobj [("message", .vstr "nope")]) respNotFound)
    rfl rfl).1

def resp500 : Response := ⟨500, "Server Error", none, none⟩

theorem tryCandidates_all_reject (r : Response) (d : Value) (l : List ErrorKind)
    (hall : ∀ k ∈ l, ∃ i, k.schema d = .failure i) :
    tryCandidates r d l = .generic (noSchemaMsg r) := by
  have h := tryCandidates_skip r ([] : List ErrorKind) hall
  rw [List.append_nil] at h
  rw [h]
  rfl

theorem handleErrorResponse_no_match {r : Response} {errorTypes : List ErrorKind}
    (hm : matchingErrors r errorTypes = []) :
    handleErrorResponse r errorTypes = .generic (requestFailedMsg r) := by
  by_cases he : errorTypes.isEmpty = true
  · rw [handleErrorResponse, if_pos he]
  · rw [handleErrorResponse, if_neg he, if_pos (List.isEmpty_iff.mpr hm)]

theorem handleErrorResponse_undecodable {r : Response} {errorTypes : List ErrorKind}
    (hb : r.body = none) :
    handleErrorResponse r errorTypes = .generic (requestFailedMsg r) := by
  by_cases he : errorTypes.isEmpty = true
  · rw [handleErrorResponse, if_pos he]
  · by_cases hm : (matchingErrors r errorTypes).isEmpty = true
    · rw [handleErrorResponse, if_neg he, if_pos hm]
    · rw [handleErrorResponse, if_neg he, if_neg hm, hb]

theorem handleErrorResponse_generic_msg {r : Response} {errorTypes : List ErrorKind}
    {msg : String} (h : handleErrorResponse r errorTypes = .generic msg) :
    msg = requestFailedMsg r ∨ msg = noSchemaMsg r := by
  by_cases he : errorTypes.isEmpty = true
  · rw [handleErrorResponse, if_pos he] at h
    exact Or.inl (Err.generic.inj h).symm
  · by_cases hm : (matchingErrors r errorTypes).isEmpty = true
    · rw [handleErrorResponse, if_neg he, if_pos hm] at h
      exact Or.inl (Err.generic.inj h).symm
    · cases hb : r.body with
      | none =>
        rw [handleErrorResponse, if_neg he, if_neg hm, hb] at h
        exact Or.inl (Err.generic.inj h).symm
      | some d =>
        rw [handleErrorResponse, if_neg he, if_neg hm, hb] at h
        exact Or.inr (tryCandidates_generic_msg r d _ h)

theorem msg_has_status {r : Response} {msg : String}
    (h : msg = requestFailedMsg r ∨ msg = noSchemaMsg r) :
    ∃ t, msg = "Request failed: " ++ toString r.status ++ t := by
  rcases h with h | h
  · refine ⟨" " ++ r.statusText, ?_⟩
    rw [h, requestFailedMsg]
    exact String.append_assoc _ _ _
  · refine ⟨" " ++ r.statusText ++ " - No matching error schema", ?_⟩
    rw [h, noSchemaMsg, requestFailedMsg]
    simp [String.append_assoc]

/-- C3: for a non-2xx response, the failure path throws the generic
RequestFailed error exactly when: the error-kind list is empty; or no
kind has statusCode equal to the response status; or the body is
undecodable (no schema matching is attempted then); or every
status-matching candidate schema rejects the decoded body.  Every
such message contains the numeric status code, the public operation
surfaces it as a generic Error, and in the all-rejected case the
message is the one indicating that no registered error schema
matched. -/
theorem claim3_generic_failure_iff (r : Response) (errorTypes : List ErrorKind)
    (schema : Option Schema) (hok : r.ok = false) :
    (isGenericErr (handleErrorResponse r errorTypes) = true ↔
      (errorTypes = [] ∨ matchingErrors r errorTypes = [] ∨ r.body = none ∨
        (∃ d, r.body = some d ∧
          ∀ k ∈ matchingErrors r errorTypes, ∃ i, k.schema d = .failure i))) ∧
    (∀ msg, handleErrorResponse r errorTypes = .generic msg →
        (∃ t, msg = "Request failed: " ++ toString r.status ++ t) ∧
        fetcher r schema errorTypes = .error (.generic ("Request failed: " ++ msg))) ∧
    (∀ d, r.body = some d → matchingErrors r errorTypes ≠ [] →
        (∀ k ∈ matchingErrors r errorTypes, ∃ i, k.schema d = .failure i) →
        handleErrorResponse r errorTypes = .generic (noSchemaMsg r)) := by
  refine ⟨⟨?_, ?_⟩, ?_, ?_⟩
  · intro hg
    by_cases he : errorTypes = []
    · exact Or.inl he
    · by_cases hm : matchingErrors r errorTypes = []
      · exact Or.inr (Or.inl hm)
      · cases hb : r.body with
        | none => exact Or.inr (Or.inr (Or.inl rfl))
        | some d =>
          refine Or.inr (Or.inr (Or.inr ⟨d, rfl, ?_⟩))
          rw [handleErrorResponse_eq_tryCandidates hm hb] at hg
          exact (isGenericErr_tryCandidates r d _).mp hg
  · intro hcond
    rcases hcond with he | hm | hb | ⟨d, hb, hall⟩
    · subst he; rfl
    · rw [handleErrorResponse_no_match hm]; rfl
    · rw [handleErrorResponse_undecodable hb]; rfl
    · by_cases hm : matchingErrors r errorTypes = []
      · rw [handleErrorResponse_no_match hm]; rfl
      · rw [handleErrorResponse_eq_tryCandidates hm hb]
        rw [tryCandidates_all_reject r d _ hall]
        rfl
  · intro msg hmsg
    refine ⟨msg_has_status (handleErrorResponse_generic_msg hmsg), ?_⟩
    simp [fetcher, hok, hmsg, wrapCaught]
  · intro d hb hm hall
    rw [handleErrorResponse_eq_tryCandidates hm hb]
    exact tryCandidates_all_reject r d _ hall

/-- Witness for C3: a 500 response with no registered kinds throws the
generic failure, surfaced by the public operation with the status code
in the message. -/
theorem claim3_generic_failure_iff_witness :
    isGenericErr (handleErrorResponse resp500 []) = true ∧
    fetcher resp500 none [] =
      .error (.generic ("Request failed: " ++ requestFailedMsg resp500)) := by
  have h := claim3_generic_failure_iff resp500 [] none rfl
  exact ⟨h.1.mpr (Or.inl rfl), (h.2.1 (requestFailedMsg resp500) rfl).2⟩

/-- C2: for every 2xx response with a non-empty decodable body whose
supplied success schema rejects with issue list `issues` (non-empty by
the schema-boundary contract, taken as a hypothesis), the public
operation rejects with the SchemaValidationError itself, propagated
unchanged from the success parser to the caller — the final
`return parseResponse(response, schema)` is not awaited inside the try,
so this rejection bypasses the top-level catch — and it carries exactly
the non-empty issue list the schema produced. -/
theorem claim2_validation_error_propagates (r : Response) (s : Schema)
    (errorTypes : List ErrorKind) (d : Value) (issues : List Issue)
    (hok : r.ok = true)
    (hshort : ¬(r.status = 204 ∨ r.contentLength = some "0"))
    (hb : r.body = some d)
    (hs : s d = .failure issues)
    (hne : issues ≠ []) :
    parseResponse r (some s) =
      .error (.schemaValidation ("Validation failed: " ++ firstIssueMsg issues) issues) ∧
    fetcher r (some s) errorTypes =
      .error (.schemaValidation ("Validation failed: " ++ firstIssueMsg issues) issues) ∧
    issues ≠ [] := by
  have hp : parseResponse r (some s) =
      .error (.schemaValidation ("Validation failed: " ++ firstIssueMsg issues) issues) := by
    rw [parseResponse, if_neg hshort, hb]
    exact validateSchema_failure hs
  refine ⟨hp, ?_, hne⟩
  rw [fetcher, if_pos hok, hp]

/-- Witness for C2: a 200 response whose body fails the schema rejects
with the SchemaValidationError unchanged, carrying its one issue. -/
theorem claim2_validation_error_propagates_witness :
    parseResponse respOk200 (some schemaIdString) =
      .error (.schemaValidation
        ("Validation failed: " ++ firstIssueMsg [⟨"Expected string id"⟩])
        [⟨"Expected string id"⟩]) ∧
    fetcher respOk200 (some schemaIdString) [] =
      .error (.schemaValidation
        ("Validation failed: " ++ firstIssueMsg [⟨"Expected string id"⟩])
        [⟨"Expected string id"⟩]) ∧
    thrownSchemaValidation (fetcher respOk200 (some schemaIdString) []) = true := by
  have h := claim2_validation_error_propagates respOk200 schemaIdString []
    (.vobj [("id", .vnum 1)]) [⟨"Expected string id"⟩] rfl (by decide) rfl rfl
    (List.cons_ne_nil _ _)
  exact ⟨h.1, h.2.1, rfl⟩

end FetcherSpec
